import Mathlib

/-!
# Verification of the Vertex AI streaming proxy (`main.py`)

This development gives a shallow embedding, in Lean 4, of the credential
lifecycle coordinator, request builder, stream translator, and retry loop of
the proxy in `main.py`, and proves or refutes the specification's claims
about them.

Python strings are modelled as `List Char`; Python dicts whose keys matter
(header maps, the harvested generation config) are modelled as association
lists or records of optional fields, with dict operations (`.copy()`,
`.pop(k, None)`, key assignment, `k in d`) translated operation by
operation.  Wall-clock times are integers; `asyncio` signalling state is
carried explicitly in a state record.
-/

namespace VertexProxy

/-- Python `str` modelled as a list of characters. -/
abbrev PyStr := List Char

/-- Shorthand to write Python string literals. -/
def pstr (s : String) : PyStr := s.toList

/-- Python ASCII whitespace, as stripped by `str.lstrip()` (the unicode
whitespace classes beyond ASCII do not occur in the upstream stream). -/
def isSpaceChar (c : Char) : Bool :=
  c = ' ' || c = '\t' || c = '\n' || c = '\r' || c = '\x0c' || c = '\x0b'

/-- Python `needle in hay` substring test. -/
def containsL (hay needle : PyStr) : Bool :=
  match hay with
  | [] => needle.isEmpty
  | _ :: t => needle.isPrefixOf hay || containsL t needle

/-- Python `str.lower()` (ASCII case folding suffices for the keywords
compared in the source). -/
def lowerL (s : PyStr) : PyStr := s.map Char.toLower

/-- Python `str.endswith(suf)`. -/
def endsWithL (s suf : PyStr) : Bool := suf.reverse.isPrefixOf s.reverse

/-- Python `s[:-n]` for `n ≤ len s`. -/
def dropRightL (s : PyStr) (n : Nat) : PyStr := s.take (s.length - n)

/-! ## Python dicts with string keys (header maps) -/

/-- A Python `dict` with string keys, modelled as an association list with
at most one binding per key (insertion ordered, as in CPython). -/
abbrev Dict := List (PyStr × PyStr)

/-- Python `d[k] = v`: replace in place if the key exists, else append. -/
def dset (d : Dict) (k v : PyStr) : Dict :=
  match d with
  | [] => [(k, v)]
  | (k', v') :: t => if k' = k then (k, v) :: t else (k', v') :: dset t k v

/-- Python `d.pop(k, None)`: drop the binding for `k` if present. -/
def dpop (d : Dict) (k : PyStr) : Dict :=
  match d with
  | [] => []
  | (k', v') :: t => if k' = k then t else (k', v') :: dpop t k

/-- Python `d.get(k)`. -/
def dget (d : Dict) (k : PyStr) : Option PyStr :=
  match d with
  | [] => none
  | (k', v') :: t => if k' = k then some v' else dget t k

/-- Python `k in d`. -/
def dmem (d : Dict) (k : PyStr) : Bool := (dget d k).isSome

/-! ## CredentialManager (`main.py` lines 57-167)

The manager holds the latest harvested credential, its timestamp, the two
`asyncio.Event` signals and a disk snapshot.  Events are modelled by their
set/cleared bit; the refresh lock is modelled in the preflight run below by
executing critical sections one after the other (an `asyncio.Lock` admits
exactly one holder, so the critical sections of concurrent callers are
linearized in some order). -/

/-- A harvested credential.  `headers = none` models a harvest dict without
a `'headers'` key (`'headers' in self.latest_harvest` is false). -/
structure Harvest where
  url : PyStr
  headers : Option Dict
  body : PyStr
deriving DecidableEq

structure CredState where
  latest_harvest : Option Harvest
  last_updated : Int
  /-- `refresh_event.is_set()` -/
  refresh_event : Bool
  /-- `refresh_complete_event.is_set()` -/
  refresh_complete_event : Bool
  /-- the snapshot last written by `save_to_disk` (`none`: never saved) -/
  disk : Option (Option Harvest × Int)
deriving DecidableEq

/-- `save_to_disk` (lines 99-108): persist harvest and timestamp. -/
def save_to_disk (s : CredState) : CredState :=
  { s with disk := some (s.latest_harvest, s.last_updated) }

/-- `update` (lines 110-115): store the harvest (the websocket handler
passes `data.get("data")`, which may be `None`), stamp it, persist, and set
the availability signal. -/
def update (s : CredState) (data : Option Harvest) (now : Int) : CredState :=
  let s := { s with latest_harvest := data, last_updated := now }
  let s := save_to_disk s
  { s with refresh_event := true }

/-- The header patched by `update_token` (line 125). -/
def reauthHeaderKey : PyStr := pstr "X-Goog-First-Party-Reauth"

/-- `json.dumps([token])` (line 124).  JSON escaping of special characters
inside the token is not modelled; it does not affect any claim. -/
def formatToken (token : PyStr) : PyStr :=
  pstr "[\"" ++ token ++ pstr "\"]"

/-- `update_token` (lines 117-132): guarded by
`if self.latest_harvest and 'headers' in self.latest_harvest`. -/
def update_token (s : CredState) (token : PyStr) (now : Int) : CredState :=
  match s.latest_harvest with
  | some h =>
    match h.headers with
    | some hd =>
      let h' := { h with headers := some (dset hd reauthHeaderKey (formatToken token)) }
      let s' := save_to_disk { s with latest_harvest := some h', last_updated := now }
      { s' with refresh_event := true }
    | none => s
  | none => s

/-- `get_credentials` (lines 157-165): `None` when no harvest; the >30 min
staleness check only prints a warning. -/
def get_credentials (s : CredState) : Option Harvest := s.latest_harvest

/-! ## Preflight refresh serialization (`stream_chat` lines 256-290)

`stream_chat` first checks staleness without the lock, then re-checks under
`cred_manager.refresh_lock`, broadcasts `request_token_refresh()` and waits
for `wait_for_refresh`.  Because the lock serializes the critical sections,
N concurrent callers are modelled by running the critical section N times in
sequence.  `delivered` models what the harvester pushes (via `update`)
during the `wait_for_refresh` window; `some h` is a refresh that succeeds
within the timeout. -/

/-- The staleness predicate of lines 256 and 260-264:
`not latest_harvest or time.time() - last_updated > 3000`. -/
def stale_check (s : CredState) (now : Int) : Bool :=
  s.latest_harvest.isNone || decide (now - s.last_updated > 3000)

structure PFState where
  cred : CredState
  /-- number of `request_token_refresh()` broadcasts issued so far -/
  broadcasts : Nat
deriving DecidableEq

/-- One caller's critical section under `refresh_lock` (lines 257-277):
re-check staleness; if stale, broadcast a refresh and run
`wait_for_refresh` (which clears both events and then blocks until `update`
sets `refresh_event`). -/
def preflightCritical (now : Int) (delivered : Option Harvest) (s : PFState) : PFState :=
  if stale_check s.cred now then
    let s1 : PFState := { s with broadcasts := s.broadcasts + 1 }
    let c1 := { s1.cred with refresh_event := false, refresh_complete_event := false }
    match delivered with
    | some h => { s1 with cred := update c1 (some h) now }
    | none => { s1 with cred := c1 }
  else s

/-- N callers' critical sections, linearized by the refresh lock. -/
def runCallers (now : Int) (delivered : Option Harvest) : Nat → PFState → PFState
  | 0, s => s
  | n + 1, s => runCallers now delivered n (preflightCritical now delivered s)

/-! ## RequestBuilder: model alias and generation config (lines 361-518)

The harvested `generationConfig` dict is modelled as a record of the fields
the source reads or writes; each optional field is `none` when the key is
absent.  `temperature` and `topP` are Python floats and are elided: the
source only ever copies them from the caller, and no claim mentions them. -/

structure ThinkingConfig where
  includeThoughts : Bool
  budget_token_count : Int
  thinkingBudget : Int
deriving DecidableEq

structure ImageOutputOptions where
  mimeType : PyStr
deriving DecidableEq

structure ImageConfig where
  imageSize : Option PyStr
  personGeneration : Option PyStr
  imageOutputOptions : Option ImageOutputOptions
  aspectRatio : Option PyStr
deriving DecidableEq

structure GenConfig where
  thinkingConfig : Option ThinkingConfig
  /-- the snake_case `thinking_config` key popped at line 468 -/
  thinking_config : Option ThinkingConfig
  imageConfig : Option ImageConfig
  sampleImageSize : Option PyStr
  width : Option Int
  height : Option Int
  responseModalities : Option (List PyStr)
  maxOutputTokens : Option Int
  topK : Option Int
  stopSequences : Option (List PyStr)
deriving DecidableEq

def emptyImageConfig : ImageConfig :=
  { imageSize := none, personGeneration := none, imageOutputOptions := none
    aspectRatio := none }

def emptyGenConfig : GenConfig :=
  { thinkingConfig := none, thinking_config := none, imageConfig := none
    sampleImageSize := none, width := none, height := none
    responseModalities := none, maxOutputTokens := none, topK := none
    stopSequences := none }

/-- The caller's `stop` parameter: a plain string or a list (line 517). -/
inductive StopParam
  | one (s : PyStr)
  | many (l : List PyStr)
deriving DecidableEq

/-- The generation kwargs forwarded by the endpoint to `stream_chat`. -/
structure Kwargs where
  max_tokens : Option Int
  top_k : Option Int
  stop : Option StopParam
deriving DecidableEq

def noKwargs : Kwargs := { max_tokens := none, top_k := none, stop := none }

/-- Lines 377-382: strip a `-low`/`-high` thinking suffix (checked first,
and only at the end of the string). -/
def stripThinkingSuffix (target_model : PyStr) : PyStr × Option PyStr :=
  if endsWithL target_model (pstr "-low") then
    (dropRightL target_model 4, some (pstr "low"))
  else if endsWithL target_model (pstr "-high") then
    (dropRightL target_model 5, some (pstr "high"))
  else (target_model, none)

/-- Lines 384-392: strip a `-1k`/`-2k`/`-4k` resolution suffix. -/
def stripResolutionSuffix (target_model : PyStr) : PyStr × Option PyStr :=
  if endsWithL target_model (pstr "-1k") then
    (dropRightL target_model 3, some (pstr "1k"))
  else if endsWithL target_model (pstr "-2k") then
    (dropRightL target_model 3, some (pstr "2k"))
  else if endsWithL target_model (pstr "-4k") then
    (dropRightL target_model 3, some (pstr "4k"))
  else (target_model, none)

/-- Lines 403-427: thinking config.  Case 1 uses the suffix mode (budget
8192 for `low`, 32768 for `high`); Case 2 applies when there is no suffix,
the stripped model name contains `gemini-3-pro`, and the caller supplied
`max_tokens`. -/
def applyThinking (target_model : PyStr) (thinking_mode : Option PyStr)
    (kwargs : Kwargs) (g : GenConfig) : GenConfig :=
  match thinking_mode with
  | some tm =>
    let budget : Int := if tm = pstr "low" then 8192 else 32768
    let tc : ThinkingConfig :=
      { includeThoughts := true, budget_token_count := budget
        thinkingBudget := budget }
    { g with thinkingConfig := some tc }
  | none =>
    match kwargs.max_tokens with
    | some b =>
      if containsL target_model (pstr "gemini-3-pro") then
        let tc : ThinkingConfig :=
          { includeThoughts := true, budget_token_count := b
            thinkingBudget := b }
        { g with thinkingConfig := some tc }
      else g
    | none => g

/-- Lines 429-459: image generation config for a resolution suffix. -/
def applyResolution (resolution_mode : Option PyStr) (g : GenConfig) :
    GenConfig :=
  match resolution_mode with
  | none => g
  | some rm =>
    let g := if g.responseModalities.isNone then
        { g with responseModalities := some [pstr "TEXT", pstr "IMAGE"] }
      else g
    let g := if g.imageConfig.isNone then
        { g with imageConfig := some emptyImageConfig } else g
    -- `size_str_map` (lines 440-444); `rm` is always one of the three keys
    let sizeStr := if rm = pstr "1k" then pstr "1K"
      else if rm = pstr "2k" then pstr "2K" else pstr "4K"
    match g.imageConfig with
    | some ic =>
      let ic := { ic with imageSize := some sizeStr
                          personGeneration := some (pstr "ALLOW_ALL") }
      let ic := if ic.imageOutputOptions.isNone then
          { ic with imageOutputOptions := some { mimeType := pstr "image/png" } }
        else ic
      let ic := if ic.aspectRatio.isNone then
          { ic with aspectRatio := some (pstr "1:1") } else ic
      { g with imageConfig := some ic }
    | none => g

/-- Lines 461-475: pop thinking config unless a thinking suffix was given;
pop image config unless a resolution suffix was given. -/
def applyCleanup (thinking_mode resolution_mode : Option PyStr)
    (g : GenConfig) : GenConfig :=
  let g := if thinking_mode.isNone then
      { g with thinkingConfig := none, thinking_config := none } else g
  if resolution_mode.isNone then
    { g with imageConfig := none, sampleImageSize := none, width := none
             height := none }
  else g

/-- Lines 489-498: keep a harvested `maxOutputTokens` of at least 8192,
replace a missing or lower value with 65535. -/
def fixMaxOutputTokens (g : GenConfig) : GenConfig :=
  match g.maxOutputTokens with
  | some v => if v < 8192 then { g with maxOutputTokens := some 65535 } else g
  | none => { g with maxOutputTokens := some 65535 }

/-- Lines 500-518: copy caller parameters over the harvested defaults
(`temperature`/`topP` elided, see above; source order kept). -/
def applyKwargs (kwargs : Kwargs) (g : GenConfig) : GenConfig :=
  let g := match kwargs.top_k with
    | some k => { g with topK := some k }
    | none => g
  let g := match kwargs.max_tokens with
    | some mt => { g with maxOutputTokens := some mt }
    | none => g
  match kwargs.stop with
  | some (.one s) => { g with stopSequences := some [s] }
  | some (.many l) => { g with stopSequences := some l }
  | none => g

structure ResolvedRequest where
  model : PyStr
  genConfig : GenConfig
deriving DecidableEq

/-- Lines 361-518 end to end: alias lookup (`model_map.get(model, model)`,
with `model_map = {}` when `models.json` is unreadable), suffix stripping
(thinking first, then resolution), thinking/image config, cleanup, the
`maxOutputTokens` fix, and the caller parameter overrides. -/
def configureModel (model_map : Dict) (model : PyStr) (kwargs : Kwargs)
    (harvestedGen : Option GenConfig) : ResolvedRequest :=
  let target_model := (dget model_map model).getD model
  let p1 := stripThinkingSuffix target_model
  let p2 := stripResolutionSuffix p1.1
  let target_model := p2.1
  let thinking_mode := p1.2
  let resolution_mode := p2.2
  -- `if 'generationConfig' not in new_variables: ... = {}` (lines 398-401)
  let g := harvestedGen.getD emptyGenConfig
  let g := applyThinking target_model thinking_mode kwargs g
  let g := applyResolution resolution_mode g
  let g := applyCleanup thinking_mode resolution_mode g
  let g := fixMaxOutputTokens g
  let g := applyKwargs kwargs g
  { model := target_model, genConfig := g }

/-! ## StreamTranslator: `process_google_response` (lines 706-801)

A decoded upstream object is modelled structurally.  The `id`, `created`
and `model` envelope fields of each emitted SSE chunk are nondeterministic
(uuid4 / wall clock) and carry no claim, so an emitted chunk is modelled by
its `delta` payload / finish reason. -/

/-- One entry of a candidate's `content.parts`.  `text` defaults to `''`
(line 745), `thought` to `False` (line 747); `inlineData` and `uri` model
the corresponding optional keys. -/
structure GPart where
  text : PyStr
  thought : Bool
  inlineData : Option (PyStr × PyStr)
  uri : Option PyStr
deriving DecidableEq

structure GCandidate where
  parts : List GPart
  finishReason : Option PyStr
deriving DecidableEq

/-- One entry of `data['results']`.  `errors = some msgs` models a result
dict with an `'errors'` key holding the error messages; `candidates` models
`result['data']['candidates']` (empty for a missing/empty key). -/
structure GResult where
  errors : Option (List PyStr)
  candidates : List GCandidate
deriving DecidableEq

/-- A decoded upstream stream object. -/
structure GChunk where
  /-- an `'error'` key at top level (line 715): logged and skipped -/
  error : Option PyStr
  results : List GResult
deriving DecidableEq

/-- An emitted OpenAI-style chunk, reduced to its claim-relevant payload. -/
inductive Event
  | delta (content : Option PyStr) (reasoning : Option PyStr)
  | finish (reason : PyStr)
deriving DecidableEq

/-- Line 728: the in-band authentication failure keywords. -/
def isAuthMessage (msg : PyStr) : Bool :=
  containsL msg (pstr "Recaptcha") ||
  containsL (lowerL msg) (pstr "token") ||
  containsL msg (pstr "Authentication")

/-- Lines 742-777: the delta emitted for one part, if any.  A nonempty
`text` goes to `reasoning_content` or `content` depending on `thought`;
inline image data (when both `mimeType` and `data` are nonempty) overwrites
`delta['content']` with a markdown data URI; otherwise an external `uri`
does the same. -/
def partDelta (p : GPart) : Option Event :=
  let content0 : Option PyStr :=
    if p.text.isEmpty then none
    else if p.thought then none else some p.text
  let reasoning0 : Option PyStr :=
    if p.text.isEmpty then none
    else if p.thought then some p.text else none
  let content1 : Option PyStr :=
    match p.inlineData with
    | some (mime, b64) =>
      if !mime.isEmpty && !b64.isEmpty then
        some (pstr "![Generated Image](data:" ++ mime ++ pstr ";base64," ++
          b64 ++ pstr ")")
      else content0
    | none =>
      match p.uri with
      | some u => some (pstr "![Generated Image](" ++ u ++ pstr ")")
      | none => content0
  if content1.isNone && reasoning0.isNone then none
  else some (.delta content1 reasoning0)

/-- Lines 779-796: the finish-reason chunk for one candidate.  A `STOP` or
`MAX_TOKENS` reason is emitted lower-cased unless any part of the candidate
is a thought part, in which case it is suppressed. -/
def candidateFinish (c : GCandidate) : List Event :=
  let is_thought_part := c.parts.any (fun p => p.thought)
  match c.finishReason with
  | some fr =>
    if (fr = pstr "STOP" || fr = pstr "MAX_TOKENS") && !is_thought_part then
      [.finish (lowerL fr)]
    else []
  | none => []

/-- Lines 738-796: all chunks emitted for one candidate. -/
def candidateEvents (c : GCandidate) : List Event :=
  c.parts.filterMap partDelta ++ candidateFinish c

/-- Lines 720-796 for one result: an `'errors'` key raises `AuthError` on
the first matching message (and otherwise skips the result); a result
without errors yields its candidates' events. -/
def resultEvents (r : GResult) : List Event × Option PyStr :=
  match r.errors with
  | some msgs =>
    match msgs.find? (fun m => isAuthMessage m) with
    | some m => ([], some (pstr "Authentication failed: " ++ m))
    | none => ([], none)
  | none => (r.candidates.flatMap candidateEvents, none)

/-- `process_google_response` as consumed by the streaming loop: the events
yielded before control returns (or before an `AuthError` escapes), paired
with the auth failure, if one was raised.  Results after a raising result
are not reached. -/
def process_google_response (data : GChunk) : List Event × Option PyStr :=
  if data.error.isSome then ([], none)
  else go data.results
where
  go : List GResult → List Event × Option PyStr
  | [] => ([], none)
  | r :: rest =>
    let (evs, err) := resultEvents r
    match err with
    | some e => (evs, some e)
    | none =>
      let (evs', err') := go rest
      (evs ++ evs', err')

/-! ## StreamTranslator: the incremental buffer loop (lines 602-653)

One iteration of the `while buffer:` body.  `json.JSONDecoder().raw_decode`
is a Python stdlib function; it is abstracted as a decoder together with
the fact that a successful decode of a value consumes at least one
character.  A raised `json.JSONDecodeError` maps to `decode = none`.  Note
the handler order of lines 628-653: a decode failure is caught by the
`json.JSONDecodeError` handler and breaks out of the loop; the
"aggressive skip" resynchronization lives in the later generic handler,
which a decode failure never reaches (and `process_google_response`
swallows every exception except `AuthError`, which is re-raised by the
preceding handler). -/

structure RawDecoder where
  /-- `raw_decode buf = some n`: a value was decoded, `buf[:n]` consumed -/
  decode : PyStr → Option Nat
  one_le : ∀ b n, decode b = some n → 1 ≤ n

/-- Outcome of one iteration of the `while buffer:` body. -/
inductive IterOut
  | exitEmpty
  | more (buffer : PyStr)
  | suspend (buffer : PyStr)
deriving DecidableEq

/-- Lines 609-617: the framing characters of the upstream's incrementally
appended JSON array, each consumed by one `continue` iteration. -/
def isFraming (c : Char) : Bool := c = '[' || c = ',' || c = ']'

/-- One iteration (lines 602-653): `lstrip`, exit when empty, consume one
framing character (`[`, `,`, `]`) and continue, else try to decode one JSON
value: on success consume it and continue, on failure break out and wait
for more bytes with the buffer as is. -/
def loopIter (d : RawDecoder) (buffer : PyStr) : IterOut :=
  let buffer := buffer.dropWhile isSpaceChar
  match buffer with
  | [] => .exitEmpty
  | c :: t =>
    if isFraming c then .more t
    else
      match d.decode (c :: t) with
      | some idx => .more ((c :: t).drop idx)
      | none => .suspend (c :: t)

/-- A decoder that decodes nothing, for concrete refutations: any
buffer is undecodable at its start. -/
def nullDecoder : RawDecoder where
  decode := fun _ => none
  one_le := by intro b n h; cases h

/-! ## Outgoing request headers (lines 533-550, 575-581, 671-677) -/

/-- Lines 534-548: the initial attempt's headers — a copy of the
credential's headers with `content-type` forced to JSON and the
content-length/host/connection (both capitalizations) and `accept-encoding`
keys removed. -/
def buildHeaders (credHeaders : Dict) : Dict :=
  let headers := credHeaders
  let headers := dset headers (pstr "content-type") (pstr "application/json")
  let headers := dpop headers (pstr "content-length")
  let headers := dpop headers (pstr "Content-Length")
  let headers := dpop headers (pstr "host")
  let headers := dpop headers (pstr "Host")
  let headers := dpop headers (pstr "connection")
  let headers := dpop headers (pstr "Connection")
  dpop headers (pstr "accept-encoding")

/-- Lines 577-580 and 673-676: the headers rebuilt from the refreshed
credential before a retry — only `content-length` and `host` are popped. -/
def buildHeadersRetry (credHeaders : Dict) : Dict :=
  let headers := dset credHeaders (pstr "content-type") (pstr "application/json")
  let headers := dpop headers (pstr "content-length")
  dpop headers (pstr "host")

/-- Per-attempt send preparation: the credential as read from the store,
and the wire headers built from `creds['headers'].copy()`.  Because of the
copy, the store's value is returned unchanged.  (A harvest without a
`headers` key would raise `KeyError` at line 534; the claims only concern
harvests that have one.) -/
def sendPrep (cred : Harvest) : Harvest × Dict :=
  (cred, buildHeaders (cred.headers.getD []))

/-- Retry-path analogue of `sendPrep` (lines 576-581, 672-677). -/
def sendPrepRetry (cred : Harvest) : Harvest × Dict :=
  (cred, buildHeadersRetry (cred.headers.getD []))

/-! ## The send/retry loop of `stream_chat` (lines 292-704)

The loop `for attempt in range(max_retries + 1)` with `max_retries = 1` is
modelled over the observable outcome of each send attempt and the results
of the two refresh waits.  The emitted server-sent events are reduced to
their claim-relevant payload, and the refresh interactions are recorded as
an action trace. -/

/-- The observable outcome of one send attempt. -/
inductive Attempt
  /-- a non-200 upstream status, with the error body (lines 559-589) -/
  | http (status : Nat) (body : PyStr)
  /-- a 200 stream in which translation raised `AuthError` after the events
  `pre` had been yielded (lines 631-632, 658) -/
  | authFail (pre : List Event) (msg : PyStr)
  /-- any other exception after yielding `pre` (line 688) -/
  | fail (pre : List Event) (msg : PyStr)
  /-- the stream completed, yielding `events` -/
  | ok (events : List Event)
deriving DecidableEq

/-- One emitted SSE frame, reduced to its payload: a chunk, an error
payload `{"error": ..., "type": ty}`, or the `data: [DONE]` sentinel. -/
inductive SSE
  | event (e : Event)
  | errorPayload (ty : PyStr) (msg : PyStr)
  | done
deriving DecidableEq

/-- Refresh interactions performed by the loop, with wait timeouts in
seconds. -/
inductive Act
  | broadcast
  | waitCred (timeout : Nat)
  | waitUi (timeout : Nat)
  | sleep1
  | rebuild
deriving DecidableEq

/-- The loop body from line 296, over the remaining attempts.  `credWait`
and `uiWait` are the results of `wait_for_refresh` and
`wait_for_refresh_complete`; `attempt` is the Python loop index, checked
against `max_retries = 1`.  An exhausted attempt list is the `for` loop
running off its range and falling through to the final `[DONE]`
(line 704), as does a completed stream (`break`, line 656). -/
def runLoop (credWait uiWait : Bool) : List Attempt → Nat → List SSE × List Act
  | [], _ => ([SSE.done], [])
  | a :: rest, attempt =>
    match a with
    | .ok evs => (evs.map SSE.event ++ [SSE.done], [])
    | .http status body =>
      if (status == 400 || status == 401 || status == 403) && attempt < 1 then
        -- lines 564-584: trigger refresh, wait 45 s for credentials only
        if credWait then
          let r := runLoop credWait uiWait rest (attempt + 1)
          (r.1, [Act.broadcast, Act.waitCred 45, Act.sleep1, Act.rebuild] ++ r.2)
        else
          ([SSE.errorPayload (pstr "upstream_error") body],
           [Act.broadcast, Act.waitCred 45])
      else
        ([SSE.errorPayload (pstr "upstream_error") body], [])
    | .authFail pre msg =>
      let preS := pre.map SSE.event
      if attempt < 1 then
        -- lines 658-678: wait 60 s for credentials, then 60 s for the UI
        if credWait then
          if uiWait then
            let r := runLoop credWait uiWait rest (attempt + 1)
            (preS ++ r.1,
             [Act.broadcast, Act.waitCred 60, Act.waitUi 60, Act.sleep1,
              Act.rebuild] ++ r.2)
          else
            (preS ++ [SSE.errorPayload (pstr "authentication_error") msg],
             [Act.broadcast, Act.waitCred 60, Act.waitUi 60])
        else
          (preS ++ [SSE.errorPayload (pstr "authentication_error") msg],
           [Act.broadcast, Act.waitCred 60])
      else
        (preS ++ [SSE.errorPayload (pstr "authentication_error") msg], [])
    | .fail pre msg =>
      let preS := pre.map SSE.event
      if attempt < 1 then
        let r := runLoop credWait uiWait rest (attempt + 1)
        (preS ++ r.1, r.2)
      else
        (preS ++ [SSE.errorPayload (pstr "request_error") msg], [])

/-- The environment of one call. -/
structure World where
  attempts : List Attempt
  credWait : Bool
  uiWait : Bool
deriving DecidableEq

/-- The send/retry phase of one `stream_chat` call (after preflight). -/
def stream_chat_send (w : World) : List SSE × List Act :=
  runLoop w.credWait w.uiWait w.attempts 0

/-! ## Dict lemmas -/

theorem dget_not_mem {d : Dict} {k : PyStr} (h : k ∉ d.map Prod.fst) :
    dget d k = none := by
  induction d with
  | nil => rfl
  | cons p t ih =>
    obtain ⟨k', v'⟩ := p
    simp only [List.map_cons, List.mem_cons, not_or] at h
    simp only [dget, if_neg (fun hk : k' = k => h.1 hk.symm)]
    exact ih h.2

theorem dget_dset_self (d : Dict) (k v : PyStr) :
    dget (dset d k v) k = some v := by
  induction d with
  | nil => simp [dset, dget]
  | cons p t ih =>
    obtain ⟨k', v'⟩ := p
    by_cases hk : k' = k
    · simp [dset, dget, hk]
    · simp [dset, dget, hk, ih]

theorem dget_dset_ne {k k' : PyStr} (d : Dict) (v : PyStr) (h : k' ≠ k) :
    dget (dset d k v) k' = dget d k' := by
  induction d with
  | nil =>
    simp only [dset, dget]
    rw [if_neg (fun hk : k = k' => h hk.symm)]
  | cons p t ih =>
    obtain ⟨k'', v''⟩ := p
    by_cases hk : k'' = k
    · simp only [dset, if_pos hk, dget]
      rw [if_neg (fun hk' : k = k' => h hk'.symm),
        if_neg (fun hk' : k'' = k' => h (hk ▸ hk'.symm ▸ rfl))]
    · simp only [dset, if_neg hk, dget]
      by_cases hk' : k'' = k' <;> simp [hk', ih]

theorem dget_dpop_ne {k k' : PyStr} (d : Dict) (h : k' ≠ k) :
    dget (dpop d k) k' = dget d k' := by
  induction d with
  | nil => rfl
  | cons p t ih =>
    obtain ⟨k'', v''⟩ := p
    by_cases hk : k'' = k
    · simp only [dpop, if_pos hk, dget]
      rw [if_neg (fun hk' : k'' = k' => h (hk ▸ hk'.symm ▸ rfl))]
    · simp only [dpop, if_neg hk, dget]
      by_cases hk' : k'' = k' <;> simp [hk', ih]

theorem dget_dpop_self {d : Dict} (k : PyStr)
    (hd : (d.map Prod.fst).Nodup) : dget (dpop d k) k = none := by
  induction d with
  | nil => rfl
  | cons p t ih =>
    obtain ⟨k', v'⟩ := p
    simp only [List.map_cons, List.nodup_cons] at hd
    by_cases hk : k' = k
    · subst hk
      simp only [dpop, if_pos rfl]
      exact dget_not_mem hd.1
    · simp only [dpop, if_neg hk, dget, if_neg hk]
      exact ih hd.2

theorem dpop_keys_sublist (d : Dict) (k : PyStr) :
    ((dpop d k).map Prod.fst).Sublist (d.map Prod.fst) := by
  induction d with
  | nil => simp [dpop]
  | cons p t ih =>
    obtain ⟨k', v'⟩ := p
    by_cases hk : k' = k
    · simp only [dpop, if_pos hk, List.map_cons]
      exact List.sublist_cons_self _ _
    · simp only [dpop, if_neg hk, List.map_cons]
      exact ih.cons₂ _

theorem dpop_keys_nodup {d : Dict} (k : PyStr)
    (hd : (d.map Prod.fst).Nodup) : ((dpop d k).map Prod.fst).Nodup :=
  hd.sublist (dpop_keys_sublist d k)

theorem mem_keys_dset {d : Dict} {k v k' : PyStr}
    (h : k' ∈ (dset d k v).map Prod.fst) :
    k' ∈ d.map Prod.fst ∨ k' = k := by
  induction d with
  | nil => simpa [dset] using h
  | cons p t ih =>
    obtain ⟨k'', v''⟩ := p
    by_cases hk : k'' = k
    · simp only [dset, if_pos hk, List.map_cons, List.mem_cons] at h ⊢
      tauto
    · simp only [dset, if_neg hk, List.map_cons, List.mem_cons] at h ⊢
      rcases h with h | h
      · exact Or.inl (Or.inl h)
      · rcases ih h with h' | h'
        · exact Or.inl (Or.inr h')
        · exact Or.inr h'

theorem dset_keys_nodup {d : Dict} (k v : PyStr)
    (hd : (d.map Prod.fst).Nodup) : ((dset d k v).map Prod.fst).Nodup := by
  induction d with
  | nil => simp [dset]
  | cons p t ih =>
    obtain ⟨k', v'⟩ := p
    simp only [List.map_cons, List.nodup_cons] at hd
    by_cases hk : k' = k
    · simp only [dset, if_pos hk, List.map_cons, List.nodup_cons]
      exact ⟨hk ▸ hd.1, hd.2⟩
    · simp only [dset, if_neg hk, List.map_cons, List.nodup_cons]
      refine ⟨fun hmem => ?_, ih hd.2⟩
      rcases mem_keys_dset hmem with h' | h'
      · exact hd.1 h'
      · exact hk h'

/-! ## C9: outgoing headers -/

/-- C9 (counterexample): the claim says every send attempt's headers have
`connection` and `accept-encoding` removed, but the headers rebuilt for a
retry (lines 577-580, 673-677) only pop `content-length` and `host`, so a
credential header dict carrying `connection` or `accept-encoding` keeps
them on the retry attempt. -/
theorem c9_headers_counterexample :
    dmem (buildHeadersRetry [(pstr "connection", pstr "keep-alive"),
      (pstr "accept-encoding", pstr "gzip")]) (pstr "connection") = true ∧
    dmem (buildHeadersRetry [(pstr "connection", pstr "keep-alive"),
      (pstr "accept-encoding", pstr "gzip")]) (pstr "accept-encoding") = true := by
  decide

/-- C9 (amended): on the initial attempt the outgoing headers are a copy of
the credential's headers with `content-type` forced to `application/json`
and `content-length`, `Content-Length`, `host`, `Host`, `connection`,
`Connection` and `accept-encoding` removed; on a refresh-retry rebuild only
`content-length` and `host` are removed (still with `content-type`
forced); in both cases the headers are built from a copy and the stored
credential is returned unchanged. -/
theorem c9_headers_amended (h : Dict) (hn : (h.map Prod.fst).Nodup) :
    dget (buildHeaders h) (pstr "content-type") =
      some (pstr "application/json") ∧
    dget (buildHeaders h) (pstr "content-length") = none ∧
    dget (buildHeaders h) (pstr "Content-Length") = none ∧
    dget (buildHeaders h) (pstr "host") = none ∧
    dget (buildHeaders h) (pstr "Host") = none ∧
    dget (buildHeaders h) (pstr "connection") = none ∧
    dget (buildHeaders h) (pstr "Connection") = none ∧
    dget (buildHeaders h) (pstr "accept-encoding") = none ∧
    dget (buildHeadersRetry h) (pstr "content-type") =
      some (pstr "application/json") ∧
    dget (buildHeadersRetry h) (pstr "content-length") = none ∧
    dget (buildHeadersRetry h) (pstr "host") = none ∧
    (∀ cred : Harvest, (sendPrep cred).1 = cred ∧
      (sendPrepRetry cred).1 = cred) := by
  have n1 : ((dset h (pstr "content-type") (pstr "application/json")).map
      Prod.fst).Nodup := dset_keys_nodup _ _ hn
  have n2 := dpop_keys_nodup (d := dset h (pstr "content-type")
    (pstr "application/json")) (pstr "content-length") n1
  have n3 := dpop_keys_nodup (pstr "Content-Length") n2
  have n4 := dpop_keys_nodup (pstr "host") n3
  have n5 := dpop_keys_nodup (pstr "Host") n4
  have n6 := dpop_keys_nodup (pstr "connection") n5
  have n7 := dpop_keys_nodup (pstr "Connection") n6
  refine ⟨?_, ?_, ?_, ?_, ?_, ?_, ?_, ?_, ?_, ?_, ?_,
    fun cred => ⟨rfl, rfl⟩⟩
  · show dget (dpop _ _) _ = _
    rw [dget_dpop_ne _ (by decide), dget_dpop_ne _ (by decide),
      dget_dpop_ne _ (by decide), dget_dpop_ne _ (by decide),
      dget_dpop_ne _ (by decide), dget_dpop_ne _ (by decide),
      dget_dpop_ne _ (by decide), dget_dset_self]
  · show dget (dpop _ _) _ = _
    rw [dget_dpop_ne _ (by decide), dget_dpop_ne _ (by decide),
      dget_dpop_ne _ (by decide), dget_dpop_ne _ (by decide),
      dget_dpop_ne _ (by decide), dget_dpop_ne _ (by decide),
      dget_dpop_self _ n1]
  · show dget (dpop _ _) _ = _
    rw [dget_dpop_ne _ (by decide), dget_dpop_ne _ (by decide),
      dget_dpop_ne _ (by decide), dget_dpop_ne _ (by decide),
      dget_dpop_ne _ (by decide), dget_dpop_self _ n2]
  · show dget (dpop _ _) _ = _
    rw [dget_dpop_ne _ (by decide), dget_dpop_ne _ (by decide),
      dget_dpop_ne _ (by decide), dget_dpop_ne _ (by decide),
      dget_dpop_self _ n3]
  · show dget (dpop _ _) _ = _
    rw [dget_dpop_ne _ (by decide), dget_dpop_ne _ (by decide),
      dget_dpop_ne _ (by decide), dget_dpop_self _ n4]
  · show dget (dpop _ _) _ = _
    rw [dget_dpop_ne _ (by decide), dget_dpop_ne _ (by decide),
      dget_dpop_self _ n5]
  · show dget (dpop _ _) _ = _
    rw [dget_dpop_ne _ (by decide), dget_dpop_self _ n6]
  · show dget (dpop _ _) _ = _
    rw [dget_dpop_self _ n7]
  · show dget (dpop _ _) _ = _
    rw [dget_dpop_ne _ (by decide), dget_dpop_ne _ (by decide),
      dget_dset_self]
  · show dget (dpop _ _) _ = _
    rw [dget_dpop_ne _ (by decide), dget_dpop_self _ n1]
  · show dget (dpop _ _) _ = _
    rw [dget_dpop_self _ (dpop_keys_nodup _ n1)]

/-- Witness for `c9_headers_amended` at a concrete header dict. -/
theorem c9_headers_amended_witness :
    (([(pstr "connection", pstr "keep-alive"),
       (pstr "x-goog-api-key", pstr "abc")] : Dict).map Prod.fst).Nodup ∧
    dget (buildHeaders [(pstr "connection", pstr "keep-alive"),
      (pstr "x-goog-api-key", pstr "abc")]) (pstr "connection") = none :=
  ⟨by decide, (c9_headers_amended _ (by decide)).2.2.2.2.2.1⟩

/-! ## C10: `update_token` without a stored credential -/

/-- C10: `update_token` is a complete no-op when no credential has ever
been stored, or when the stored harvest has no `headers` key: the stored
credential, timestamp, disk snapshot and both refresh signals are all
unchanged, so a caller blocked in `wait_for_refresh` is not unblocked. -/
theorem c10_update_token_noop (s : CredState) (token : PyStr) (now : Int)
    (h : s.latest_harvest = none ∨
      ∃ hv, s.latest_harvest = some hv ∧ hv.headers = none) :
    update_token s token now = s := by
  rcases h with h | ⟨hv, h, hh⟩
  · simp [update_token, h]
  · simp [update_token, h, hh]

/-- The manager's state as constructed at process start with no credentials
file on disk (lines 57-79: both events are lazily created in the set
state). -/
def initCredState : CredState :=
  { latest_harvest := none, last_updated := 0, refresh_event := true,
    refresh_complete_event := true, disk := none }

/-- Witness for `c10_update_token_noop`: a `token_refreshed` message
arriving before any harvest changes nothing. -/
theorem c10_update_token_noop_witness :
    initCredState.latest_harvest = none ∧
    update_token initCredState (pstr "ya29.fresh") 500 = initCredState :=
  ⟨rfl, c10_update_token_noop _ _ _ (Or.inl rfl)⟩

/-! ## C1: refresh serialization -/

theorem preflight_noop_of_fresh (now : Int) (d : Option Harvest)
    (s : PFState) (h : stale_check s.cred now = false) :
    preflightCritical now d s = s := by
  simp [preflightCritical, h]

theorem runCallers_noop (now : Int) (d : Option Harvest) (k : Nat)
    (s : PFState) (h : stale_check s.cred now = false) :
    runCallers now d k s = s := by
  induction k with
  | zero => rfl
  | succ m ih =>
    show runCallers now d m (preflightCritical now d s) = s
    rw [preflight_noop_of_fresh now d s h, ih]

/-- C1 (amended): with the critical sections of N concurrent callers
serialized by `refresh_lock`, if all callers start while the credential is
absent or stale and the refresh broadcast is answered by a harvest
delivery during the first caller's `wait_for_refresh`, then exactly one
broadcast is issued: each later caller re-checks staleness under the lock,
observes the delivered credential, and does not broadcast.  (Without a
delivery the re-check still sees an absent/stale credential and every
caller broadcasts — see the counterexample.) -/
theorem c1_single_refresh_broadcast (now : Int) (h : Harvest)
    (c0 : CredState) (hstale : stale_check c0 now = true) (n : Nat)
    (hn : 1 ≤ n) :
    (runCallers now (some h) n { cred := c0, broadcasts := 0 }).broadcasts
      = 1 ∧
    (runCallers now (some h) n
      { cred := c0, broadcasts := 0 }).cred.latest_harvest = some h := by
  obtain ⟨m, rfl⟩ : ∃ m, n = m + 1 := ⟨n - 1, by omega⟩
  have hfirst : preflightCritical now (some h)
      { cred := c0, broadcasts := 0 } =
      { cred := { latest_harvest := some h, last_updated := now,
                  refresh_event := true, refresh_complete_event := false,
                  disk := some (some h, now) }, broadcasts := 1 } := by
    simp [preflightCritical, hstale, update, save_to_disk]
  have hfresh : stale_check
      { latest_harvest := some h, last_updated := now,
        refresh_event := true, refresh_complete_event := false,
        disk := some (some h, now) } now = false := by
    simp [stale_check]
  have key : runCallers now (some h) (m + 1)
      { cred := c0, broadcasts := 0 } =
      { cred := { latest_harvest := some h, last_updated := now,
                  refresh_event := true, refresh_complete_event := false,
                  disk := some (some h, now) }, broadcasts := 1 } := by
    show runCallers now (some h) m (preflightCritical now (some h)
      { cred := c0, broadcasts := 0 }) = _
    rw [hfirst, runCallers_noop _ _ _ _ hfresh]
  rw [key]
  exact ⟨rfl, rfl⟩

def sampleHarvest : Harvest :=
  { url := pstr "https://aistudio.google.com/graphql"
    headers := some [(pstr "cookie", pstr "SID=1")]
    body := pstr "" }

/-- A stale (but present) stored credential: harvested at time 0, used at
time 5000 > 3000. -/
def staleCredState : CredState :=
  { latest_harvest := some sampleHarvest, last_updated := 0,
    refresh_event := true, refresh_complete_event := true, disk := none }

/-- Witness for `c1_single_refresh_broadcast` with three callers, once
from an absent credential and once from a stale one. -/
theorem c1_single_refresh_broadcast_witness :
    stale_check initCredState 1000 = true ∧
    stale_check staleCredState 5000 = true ∧ 1 ≤ 3 ∧
    (runCallers 1000 (some sampleHarvest) 3
      { cred := initCredState, broadcasts := 0 }).broadcasts = 1 ∧
    (runCallers 5000 (some sampleHarvest) 3
      { cred := staleCredState, broadcasts := 0 }).broadcasts = 1 :=
  ⟨by decide, by decide, by decide,
    (c1_single_refresh_broadcast 1000 sampleHarvest initCredState
      (by decide) 3 (by decide)).1,
    (c1_single_refresh_broadcast 5000 sampleHarvest staleCredState
      (by decide) 3 (by decide)).1⟩

/-- C1 (counterexample): when the broadcast is not answered by a delivery
during the waits (refresh timeout), the re-check under the lock still sees
an absent — or, in the second run, stale — credential, so each of the two
serialized callers issues its own broadcast: two broadcasts for two
callers, refuting the unconditional "exactly one refresh broadcast". -/
theorem c1_refresh_counterexample :
    (runCallers 1000 none 2
      { cred := initCredState, broadcasts := 0 }).broadcasts = 2 ∧
    (runCallers 5000 none 2
      { cred := staleCredState, broadcasts := 0 }).broadcasts = 2 ∧
    (2 : Nat) ≠ 1 := by
  decide

/-! ## C2: model alias resolution -/

/-- C2 (counterexample): resolving `"gemini-3-pro-high-4k"` does not yield
base model `"gemini-3-pro"` and produces no thinking config, because the
`-low`/`-high` check (lines 377-382) runs before the resolution suffix is
stripped and only looks at the end of the string: with `-4k` trailing, the
`-high` suffix survives inside the model name, and the cleanup at lines
465-468 then removes the thinking config.  Stripping is therefore not
order-independent: the swapped alias `"gemini-3-pro-4k-high"` resolves
differently. -/
theorem c2_alias_counterexample :
    (configureModel [] (pstr "gemini-3-pro-high-4k") noKwargs none).model ≠
      pstr "gemini-3-pro" ∧
    (configureModel [] (pstr "gemini-3-pro-high-4k") noKwargs
      none).genConfig.thinkingConfig = none ∧
    configureModel [] (pstr "gemini-3-pro-high-4k") noKwargs none ≠
      configureModel [] (pstr "gemini-3-pro-4k-high") noKwargs none := by
  decide

/-- C2 (amended): resolving `"gemini-3-pro-high-4k"` yields base model
`"gemini-3-pro-high"` with no thinking config, while image generation is
still configured with `imageSize "4K"` and `aspectRatio` defaulting to
`"1:1"`; suffix stripping is order-dependent — only the alias with the
thinking suffix written last, `"gemini-3-pro-4k-high"`, yields base model
`"gemini-3-pro"` with thinking budget 32768 together with the `"4K"`/
`"1:1"` image config. -/
theorem c2_alias_amended :
    (configureModel [] (pstr "gemini-3-pro-high-4k") noKwargs none).model =
      pstr "gemini-3-pro-high" ∧
    (configureModel [] (pstr "gemini-3-pro-high-4k") noKwargs
      none).genConfig.thinkingConfig = none ∧
    ((configureModel [] (pstr "gemini-3-pro-high-4k") noKwargs
      none).genConfig.imageConfig.map ImageConfig.imageSize) =
      some (some (pstr "4K")) ∧
    ((configureModel [] (pstr "gemini-3-pro-high-4k") noKwargs
      none).genConfig.imageConfig.map ImageConfig.aspectRatio) =
      some (some (pstr "1:1")) ∧
    (configureModel [] (pstr "gemini-3-pro-4k-high") noKwargs none).model =
      pstr "gemini-3-pro" ∧
    (configureModel [] (pstr "gemini-3-pro-4k-high") noKwargs
      none).genConfig.thinkingConfig =
      some { includeThoughts := true, budget_token_count := 32768
             thinkingBudget := 32768 } ∧
    ((configureModel [] (pstr "gemini-3-pro-4k-high") noKwargs
      none).genConfig.imageConfig.map ImageConfig.imageSize) =
      some (some (pstr "4K")) ∧
    ((configureModel [] (pstr "gemini-3-pro-4k-high") noKwargs
      none).genConfig.imageConfig.map ImageConfig.aspectRatio) =
      some (some (pstr "1:1")) := by
  decide

/-! ## C7: the `maxOutputTokens` floor -/

theorem fixMax_ge (g : GenConfig) :
    ∃ v, (fixMaxOutputTokens g).maxOutputTokens = some v ∧ 8192 ≤ v := by
  unfold fixMaxOutputTokens
  split
  next v heq =>
    split
    next hv => exact ⟨65535, by simp, by norm_num⟩
    next hv => exact ⟨v, by simpa using heq, by omega⟩
  next heq => exact ⟨65535, by simp, by norm_num⟩

theorem applyKwargs_max_none (kwargs : Kwargs) (g : GenConfig)
    (h : kwargs.max_tokens = none) :
    (applyKwargs kwargs g).maxOutputTokens = g.maxOutputTokens := by
  unfold applyKwargs
  rw [h]
  rcases hs : kwargs.stop with _ | sp
  · rcases kwargs.top_k with _ | k <;> simp
  · rcases sp with s | l <;> rcases kwargs.top_k with _ | k <;> simp

theorem configureModel_genConfig (model_map : Dict) (model : PyStr)
    (kwargs : Kwargs) (g : Option GenConfig) :
    ∃ gc, (configureModel model_map model kwargs g).genConfig =
      applyKwargs kwargs (fixMaxOutputTokens gc) :=
  ⟨_, rfl⟩

/-- C7 (counterexample): a caller-supplied `max_tokens` below the floor is
written into `maxOutputTokens` unconditionally at lines 512-513, after the
floor of lines 489-498 was applied to the harvested value, so the final
body carries a `maxOutputTokens` below 8192. -/
theorem c7_max_tokens_counterexample :
    (configureModel [] (pstr "gemini-2.5-flash")
      { max_tokens := some 100, top_k := none, stop := none }
      (some { emptyGenConfig with
        maxOutputTokens := some 1000 })).genConfig.maxOutputTokens =
      some 100 ∧
    ¬ (8192 ≤ (100 : Int)) := by
  decide

/-- C7 (amended): the floor applies to the harvested value only — when the
caller supplies no `max_tokens`, the produced generation config always
carries a `maxOutputTokens` of at least 8192 (a harvested value that is
absent or below the floor is replaced with 65535); a caller-supplied
`max_tokens` overrides the result unconditionally and may be below the
floor. -/
theorem c7_max_tokens_amended (model_map : Dict) (model : PyStr)
    (kwargs : Kwargs) (g : Option GenConfig)
    (hmt : kwargs.max_tokens = none) :
    ∃ v, (configureModel model_map model kwargs
      g).genConfig.maxOutputTokens = some v ∧ 8192 ≤ v := by
  obtain ⟨gc, hgc⟩ := configureModel_genConfig model_map model kwargs g
  obtain ⟨v, hv, hge⟩ := fixMax_ge gc
  exact ⟨v, by rw [hgc, applyKwargs_max_none _ _ hmt, hv], hge⟩

/-- Witness for `c7_max_tokens_amended` with no caller parameters and an
empty harvested config. -/
theorem c7_max_tokens_amended_witness :
    noKwargs.max_tokens = none ∧
    ∃ v, (configureModel [] (pstr "gemini-2.5-flash") noKwargs
      none).genConfig.maxOutputTokens = some v ∧ 8192 ≤ v :=
  ⟨rfl, c7_max_tokens_amended [] (pstr "gemini-2.5-flash") noKwargs none
    rfl⟩

/-! ## C8: finish-reason suppression during thinking -/

theorem partDelta_not_finish (p : GPart) (r : PyStr) :
    partDelta p ≠ some (Event.finish r) := by
  unfold partDelta
  split <;> simp

theorem finish_not_mem_filterMap (parts : List GPart) (r : PyStr) :
    Event.finish r ∉ parts.filterMap partDelta := by
  intro hmem
  obtain ⟨p, _, hpd⟩ := List.mem_filterMap.mp hmem
  exact partDelta_not_finish p r hpd

/-- C8: for a decoded candidate whose finish reason is `STOP` or
`MAX_TOKENS`: if any part of the candidate is a thought part, no
finish-reason event is emitted for it; if no part is a thought part, its
events end with a finish-reason event carrying the lower-cased reason. -/
theorem c8_finish_suppression (c : GCandidate) (fr : PyStr)
    (hfr : c.finishReason = some fr)
    (hstop : fr = pstr "STOP" ∨ fr = pstr "MAX_TOKENS") :
    ((∃ p ∈ c.parts, p.thought = true) →
      ∀ r, Event.finish r ∉ candidateEvents c) ∧
    ((∀ p ∈ c.parts, p.thought = false) →
      candidateEvents c =
        c.parts.filterMap partDelta ++ [Event.finish (lowerL fr)]) := by
  constructor
  · rintro ⟨p, hp, hth⟩ r hmem
    have hany : c.parts.any (fun q => q.thought) = true :=
      List.any_eq_true.mpr ⟨p, hp, hth⟩
    have hev : candidateEvents c = c.parts.filterMap partDelta := by
      unfold candidateEvents candidateFinish
      rw [hfr, hany]
      simp
    rw [hev] at hmem
    exact finish_not_mem_filterMap c.parts r hmem
  · intro hall
    have hany : c.parts.any (fun q => q.thought) = false :=
      List.any_eq_false.mpr (fun q hq => by simp [hall q hq])
    unfold candidateEvents candidateFinish
    rw [hfr, hany]
    rcases hstop with h | h <;> subst h <;>
      simp only [Bool.not_false, Bool.and_true] <;>
      rw [if_pos (by decide)]

/-- Witness for `c8_finish_suppression`: a candidate with no parts and
finish reason `STOP` emits exactly the lower-cased finish event. -/
theorem c8_finish_suppression_witness :
    ({ parts := [], finishReason := some (pstr "STOP") } :
      GCandidate).finishReason = some (pstr "STOP") ∧
    candidateEvents { parts := [], finishReason := some (pstr "STOP") } =
      [Event.finish (pstr "stop")] := by
  refine ⟨rfl, ?_⟩
  have h2 := (c8_finish_suppression
    { parts := [], finishReason := some (pstr "STOP") } (pstr "STOP") rfl
    (Or.inl rfl)).2 (fun p hp => absurd hp (List.not_mem_nil p))
  rw [h2]
  decide

/-! ## C4: in-band Recaptcha failure, one retry, then surfaced error -/

/-- Recognizer for surfaced error-payload frames. -/
def isErrPayload : SSE → Bool
  | .errorPayload _ _ => true
  | _ => false

theorem countP_errPayload_map_event (l : List Event) :
    l.countP (isErrPayload ∘ SSE.event) = 0 := by
  induction l with
  | nil => rfl
  | cons e t ih => simp [List.countP_cons, isErrPayload, Function.comp, ih]

/-- C4: a decoded result carrying an `errors` message that contains
"Recaptcha" makes translation raise an authentication failure without
emitting events; in the send loop (with the refresh waits succeeding), the
first such failure triggers exactly one refresh broadcast and one retry,
and a second identical failure terminates the call with exactly one
surfaced authentication error payload. -/
theorem c4_recaptcha_retry (msg : PyStr)
    (hmsg : containsL msg (pstr "Recaptcha") = true)
    (pre1 pre2 : List Event) :
    process_google_response
      { error := none
        results := [{ errors := some [msg], candidates := [] }] } =
      ([], some (pstr "Authentication failed: " ++ msg)) ∧
    stream_chat_send
      { attempts := [.authFail pre1 (pstr "Authentication failed: " ++ msg),
                     .authFail pre2 (pstr "Authentication failed: " ++ msg)]
        credWait := true, uiWait := true } =
      (pre1.map SSE.event ++ (pre2.map SSE.event ++
        [SSE.errorPayload (pstr "authentication_error")
          (pstr "Authentication failed: " ++ msg)]),
       [Act.broadcast, Act.waitCred 60, Act.waitUi 60, Act.sleep1,
        Act.rebuild]) ∧
    (stream_chat_send
      { attempts := [.authFail pre1 (pstr "Authentication failed: " ++ msg),
                     .authFail pre2 (pstr "Authentication failed: " ++ msg)]
        credWait := true, uiWait := true }).2.count Act.broadcast = 1 ∧
    (stream_chat_send
      { attempts := [.authFail pre1 (pstr "Authentication failed: " ++ msg),
                     .authFail pre2 (pstr "Authentication failed: " ++ msg)]
        credWait := true, uiWait := true }).1.countP isErrPayload = 1 := by
  have hauth : isAuthMessage msg = true := by
    simp [isAuthMessage, hmsg]
  have h1 : process_google_response
      { error := none
        results := [{ errors := some [msg], candidates := [] }] } =
      ([], some (pstr "Authentication failed: " ++ msg)) := by
    simp [process_google_response, process_google_response.go,
      resultEvents, List.find?, hauth]
  have h2 : stream_chat_send
      { attempts := [.authFail pre1 (pstr "Authentication failed: " ++ msg),
                     .authFail pre2 (pstr "Authentication failed: " ++ msg)]
        credWait := true, uiWait := true } =
      (pre1.map SSE.event ++ (pre2.map SSE.event ++
        [SSE.errorPayload (pstr "authentication_error")
          (pstr "Authentication failed: " ++ msg)]),
       [Act.broadcast, Act.waitCred 60, Act.waitUi 60, Act.sleep1,
        Act.rebuild]) := by
    simp [stream_chat_send, runLoop]
  refine ⟨h1, h2, ?_, ?_⟩
  · rw [h2]
    rfl
  · rw [h2]
    simp [List.countP_append, countP_errPayload_map_event,
      List.countP_cons, isErrPayload]

/-- Witness for `c4_recaptcha_retry` at a concrete Recaptcha error. -/
theorem c4_recaptcha_retry_witness :
    containsL (pstr "Recaptcha token invalid") (pstr "Recaptcha") = true ∧
    process_google_response
      { error := none
        results := [{ errors := some [pstr "Recaptcha token invalid"],
                      candidates := [] }] } =
      ([], some (pstr "Authentication failed: Recaptcha token invalid")) := by
  refine ⟨by decide, ?_⟩
  rw [(c4_recaptcha_retry (pstr "Recaptcha token invalid") (by decide)
    [] []).1]
  decide

/-! ## C3: the `[DONE]` terminator -/

/-- C3 (counterexample): an upstream non-2xx error that is not eligible
for retry (here a 500) makes `stream_chat` yield the error payload and
`return` (lines 587-589) without ever reaching the `[DONE]` yield at line
704, so the emitted stream does not end with the terminator. -/
theorem c3_done_counterexample :
    stream_chat_send
      { attempts := [.http 500 (pstr "Internal Error")]
        credWait := true, uiWait := true } =
      ([SSE.errorPayload (pstr "upstream_error") (pstr "Internal Error")],
       []) ∧
    SSE.done ∉ (stream_chat_send
      { attempts := [.http 500 (pstr "Internal Error")]
        credWait := true, uiWait := true }).1 := by
  decide

/-- C3 (amended): the `[DONE]` sentinel terminates every successful call,
including a stream that yielded zero content; the post-send error paths —
upstream non-2xx not eligible for retry, authentication failure with the
retry budget exhausted, and any other request failure on the last attempt —
emit a single error payload and stop without the `[DONE]` sentinel. -/
theorem c3_done_amended (cw uw : Bool) :
    (∀ evs : List Event, runLoop cw uw [.ok evs] 0 =
      (evs.map SSE.event ++ [SSE.done], [])) ∧
    (∀ (status : Nat) (body : PyStr),
      ¬(status = 400 ∨ status = 401 ∨ status = 403) →
      runLoop cw uw [.http status body] 0 =
        ([SSE.errorPayload (pstr "upstream_error") body], [])) ∧
    (∀ (pre : List Event) (msg : PyStr) (rest : List Attempt),
      runLoop cw uw (.authFail pre msg :: rest) 1 =
        (pre.map SSE.event ++
          [SSE.errorPayload (pstr "authentication_error") msg], [])) ∧
    (∀ (pre : List Event) (msg : PyStr) (rest : List Attempt),
      runLoop cw uw (.fail pre msg :: rest) 1 =
        (pre.map SSE.event ++
          [SSE.errorPayload (pstr "request_error") msg], [])) ∧
    (∀ (status : Nat) (body : PyStr) (rest : List Attempt),
      runLoop cw uw (.http status body :: rest) 1 =
        ([SSE.errorPayload (pstr "upstream_error") body], [])) := by
  refine ⟨fun evs => by simp [runLoop], ?_, ?_, ?_, ?_⟩
  · intro status body h
    push_neg at h
    simp [runLoop, h.1, h.2.1, h.2.2]
  · intro pre msg rest
    simp [runLoop]
  · intro pre msg rest
    simp [runLoop]
  · intro status body rest
    simp [runLoop]

/-- Witness for `c3_done_amended`: an empty successful stream still ends
with `[DONE]`, and a non-retryable 500 ends without it. -/
theorem c3_done_amended_witness :
    ¬((500 : Nat) = 400 ∨ (500 : Nat) = 401 ∨ (500 : Nat) = 403) ∧
    runLoop true true [.ok []] 0 = ([SSE.done], []) ∧
    runLoop true true [.http 500 (pstr "oops")] 0 =
      ([SSE.errorPayload (pstr "upstream_error") (pstr "oops")], []) :=
  ⟨by decide, by simpa using (c3_done_amended true true).1 [],
    (c3_done_amended true true).2.1 500 (pstr "oops") (by decide)⟩

/-! ## C5: the two mid-stream refresh sequences -/

/-- C5 (counterexample): an upstream 401 with retry budget remaining does
not run the claimed full mid-stream sequence: it waits 45 seconds (not 60)
for credential availability and never waits for the UI-settled signal
before rebuilding and retrying (lines 564-582). -/
theorem c5_midstream_counterexample :
    stream_chat_send
      { attempts := [.http 401 (pstr "Unauthorized"), .ok []]
        credWait := true, uiWait := true } =
      ([SSE.done],
       [Act.broadcast, Act.waitCred 45, Act.sleep1, Act.rebuild]) ∧
    Act.waitUi 60 ∉ (stream_chat_send
      { attempts := [.http 401 (pstr "Unauthorized"), .ok []]
        credWait := true, uiWait := true }).2 ∧
    Act.waitCred 60 ∉ (stream_chat_send
      { attempts := [.http 401 (pstr "Unauthorized"), .ok []]
        credWait := true, uiWait := true }).2 := by
  decide

/-- C5 (amended): with the retry budget remaining and the refresh waits
succeeding, only the in-band `AuthError` path runs the full mid-stream
sequence — wait up to 60 s for credential availability, then up to 60 s
for the UI-settled signal, then rebuild headers/url and retry; the HTTP
400/401/403 path broadcasts, waits up to 45 s for credential availability
only, and rebuilds and retries without waiting for UI-settled. -/
theorem c5_midstream_amended (pre : List Event) (msg body : PyStr)
    (rest : List Attempt) (status : Nat)
    (hst : status = 400 ∨ status = 401 ∨ status = 403) :
    runLoop true true (.authFail pre msg :: rest) 0 =
      (pre.map SSE.event ++ (runLoop true true rest 1).1,
        [Act.broadcast, Act.waitCred 60, Act.waitUi 60, Act.sleep1,
         Act.rebuild] ++ (runLoop true true rest 1).2) ∧
    runLoop true true (.http status body :: rest) 0 =
      ((runLoop true true rest 1).1,
        [Act.broadcast, Act.waitCred 45, Act.sleep1, Act.rebuild] ++
          (runLoop true true rest 1).2) := by
  constructor
  · simp [runLoop]
  · rcases hst with h | h | h <;> subst h <;> simp [runLoop]

/-- Witness for `c5_midstream_amended` at a concrete 401 followed by a
successful retry. -/
theorem c5_midstream_amended_witness :
    ((401 : Nat) = 400 ∨ (401 : Nat) = 401 ∨ (401 : Nat) = 403) ∧
    runLoop true true [.http 401 (pstr "x"), .ok []] 0 =
      ([SSE.done],
       [Act.broadcast, Act.waitCred 45, Act.sleep1, Act.rebuild]) := by
  refine ⟨by decide, ?_⟩
  rw [(c5_midstream_amended [] (pstr "m") (pstr "x") [.ok []] 401
    (by decide)).2]
  decide

/-! ## C6: buffer-loop progress -/

theorem dropWhile_length_le (p : Char → Bool) (l : PyStr) :
    (l.dropWhile p).length ≤ l.length := by
  induction l with
  | nil => simp
  | cons c t ih =>
    by_cases h : p c
    · simp only [List.dropWhile_cons, h, if_true, List.length_cons]
      omega
    · simp [List.dropWhile_cons, h]

theorem loopIter_eq (d : RawDecoder) (b : PyStr) :
    loopIter d b =
      match b.dropWhile isSpaceChar with
      | [] => .exitEmpty
      | c :: t =>
        if isFraming c then .more t
        else
          match d.decode (c :: t) with
          | some idx => .more ((c :: t).drop idx)
          | none => .suspend (c :: t) := rfl

/-- C6 (counterexample): on a buffer of stray non-JSON bytes with no `[`
or `{` anywhere ahead, the loop does not skip one byte as the claim says:
the decode failure is caught by the `json.JSONDecodeError` handler
(lines 628-630) and breaks out to wait for more bytes with the buffer
unchanged — the one-byte-skip resynchronization sits in the later generic
handler (lines 633-653), which a decode failure never reaches. -/
theorem c6_progress_counterexample :
    loopIter nullDecoder (pstr "xyz") = .suspend (pstr "xyz") ∧
    containsL (pstr "xyz") (pstr "[") = false ∧
    containsL (pstr "xyz") (pstr "\x7b") = false ∧
    loopIter nullDecoder (pstr "xyz") ≠ .more (pstr "yz") := by
  decide

/-- C6 (amended): each iteration of the stream-translation loop either
consumes input — strictly shortening the buffer via whitespace/framing
stripping or a decoded JSON value — or exits with the buffer exhausted,
or, when no JSON value decodes at the whitespace-stripped buffer start,
suspends to wait for more bytes with that buffer left intact (no one-byte
skip).  The loop therefore never spins without progress on a fixed
buffer. -/
theorem c6_progress_amended (d : RawDecoder) (b : PyStr) :
    (∀ b', loopIter d b = .more b' → b'.length < b.length) ∧
    (∀ rest, loopIter d b = .suspend rest →
      rest = b.dropWhile isSpaceChar ∧ d.decode rest = none ∧
      rest ≠ []) ∧
    (loopIter d b = .exitEmpty → b.dropWhile isSpaceChar = []) := by
  have hle := dropWhile_length_le isSpaceChar b
  cases hb : b.dropWhile isSpaceChar with
  | nil =>
    have hiter : loopIter d b = .exitEmpty := by rw [loopIter_eq, hb]
    refine ⟨fun b' h => ?_, fun rest h => ?_, fun _ => rfl⟩
    · rw [hiter] at h
      cases h
    · rw [hiter] at h
      cases h
  | cons c t =>
    rw [hb] at hle
    by_cases hf : isFraming c = true
    · have hiter : loopIter d b = .more t := by
        rw [loopIter_eq, hb]
        simp [hf]
      refine ⟨?_, ?_, ?_⟩
      · intro b' h
        rw [hiter] at h
        cases h
        simp only [List.length_cons] at hle
        omega
      · intro rest h
        rw [hiter] at h
        cases h
      · intro h
        rw [hiter] at h
        cases h
    · cases hd : d.decode (c :: t) with
      | some idx =>
        have h1 := d.one_le _ _ hd
        have hiter : loopIter d b = .more ((c :: t).drop idx) := by
          rw [loopIter_eq, hb]
          simp [hf, hd]
        refine ⟨?_, ?_, ?_⟩
        · intro b' h
          rw [hiter] at h
          cases h
          simp only [List.length_drop, List.length_cons] at hle ⊢
          omega
        · intro rest h
          rw [hiter] at h
          cases h
        · intro h
          rw [hiter] at h
          cases h
      | none =>
        have hiter : loopIter d b = .suspend (c :: t) := by
          rw [loopIter_eq, hb]
          simp [hf, hd]
        refine ⟨?_, ?_, ?_⟩
        · intro b' h
          rw [hiter] at h
          cases h
        · intro rest h
          rw [hiter] at h
          cases h
          exact ⟨rfl, hd, by simp⟩
        · intro h
          rw [hiter] at h
          cases h

/-- Witness for `c6_progress_amended` at a concrete undecodable buffer:
the iteration suspends with the stripped buffer intact. -/
theorem c6_progress_amended_witness :
    loopIter nullDecoder (pstr " x") = .suspend (pstr "x") ∧
    nullDecoder.decode (pstr "x") = none ∧ (pstr "x") ≠ ([] : PyStr) := by
  refine ⟨by decide, ?_, ?_⟩
  · exact ((c6_progress_amended nullDecoder (pstr " x")).2.1 (pstr "x")
      (by decide)).2.1
  · exact ((c6_progress_amended nullDecoder (pstr " x")).2.1 (pstr "x")
      (by decide)).2.2

end VertexProxy
